import Mathlib

/-!
Shallow embedding of the succinctrolecctv Discord role-activity monitor:
the SQLite-backed activity store, the snapshot lifecycle (transactional
creation, retrieval, deletion with AUTOINCREMENT watermark reclamation),
retention cleanup, and the automatic snapshot scheduler.  Translated from
src/server.js and the bot module src/unnamed/part_001 (rolecctv.js).

Tables are modelled as lists of rows; a table's rows form a multiset, so
list order only matters where an SQL ORDER BY feeds the produced output.
SQLite's AUTOINCREMENT bookkeeping for the snapshots table is modelled by
the field seq (the sqlite_sequence entry for name = 'snapshots'): a fresh
rowid is one more than the larger of seq and the largest live id.
Timestamps are abstract instants: Nat for stored created_at values and
Int milliseconds for the scheduler clock.
-/

/-- One row of the channel_activity table (part_001 lines 23-34),
primary key (user_id, channel_id). -/
structure ActivityRow where
  user_id : String
  username : String
  roles : String
  channel_id : String
  channel_name : String
  message_count : Nat
  last_message : Nat
deriving DecidableEq, Repr

/-- One row of the snapshots table (part_001 lines 36-43),
id INTEGER PRIMARY KEY AUTOINCREMENT, name UNIQUE. -/
structure SnapshotRow where
  id : Nat
  name : String
  created_at : Nat
deriving DecidableEq, Repr

/-- One row of the snapshot_data table (part_001 lines 45-57),
primary key (snapshot_id, user_id, channel_id). -/
structure SnapshotDataRow where
  snapshot_id : Nat
  user_id : String
  username : String
  roles : String
  channel_id : String
  channel_name : String
  message_count : Nat
deriving DecidableEq, Repr

/-- The whole persistent store: the three tables plus the sqlite_sequence
watermark for the snapshots table. -/
structure DB where
  channel_activity : List ActivityRow
  snapshots : List SnapshotRow
  snapshot_data : List SnapshotDataRow
  seq : Nat
deriving DecidableEq, Repr

/-- SELECT MAX(id) FROM snapshots, with NULL read as 0
(server.js lines 72-73). -/
def maxIdOr0 (l : List SnapshotRow) : Nat :=
  (l.map (fun s => s.id)).foldr max 0

/-- The rowid SQLite assigns to the next INSERT into the AUTOINCREMENT
snapshots table: one more than the larger of the sqlite_sequence value and
the largest live id. -/
def nextId (db : DB) : Nat :=
  max db.seq (maxIdOr0 db.snapshots) + 1

/-- The per-message payload supplied by the ingestion side: the values
bound into the upsert of processMessage (part_001 lines 98-102). -/
structure MsgInfo where
  username : String
  roles : String
  channel_name : String
  time : Nat
deriving DecidableEq, Repr

/-- The single INSERT ... ON CONFLICT(user_id, channel_id) DO UPDATE
statement of processMessage (part_001 lines 104-113): create the
(user, channel) counter at 1, or increment it and overwrite the
descriptive fields with the supplied values. -/
def recordMessage (rows : List ActivityRow) (uid cid : String) (m : MsgInfo) :
    List ActivityRow :=
  if rows.any (fun r => r.user_id == uid && r.channel_id == cid) then
    rows.map (fun r =>
      if r.user_id == uid && r.channel_id == cid then
        { r with
          username := m.username
          roles := m.roles
          channel_name := m.channel_name
          message_count := r.message_count + 1
          last_message := m.time }
      else r)
  else
    rows ++ [{ user_id := uid, username := m.username, roles := m.roles,
               channel_id := cid, channel_name := m.channel_name,
               message_count := 1, last_message := m.time }]

/-- A broken-down UTC instant as rendered by JavaScript
Date.prototype.toISOString (year, month, day, hour, minute, second,
millisecond). -/
structure DateTime where
  year : Nat
  month : Nat
  day : Nat
  hour : Nat
  minute : Nat
  second : Nat
  millis : Nat
deriving DecidableEq, Repr

/-- The ASCII digit character for d. -/
def digitChar (d : Nat) : Char := Char.ofNat (48 + d)

/-- Two-digit zero-padded decimal rendering. -/
def pad2 (n : Nat) : List Char :=
  [digitChar (n / 10 % 10), digitChar (n % 10)]

/-- Three-digit zero-padded decimal rendering. -/
def pad3 (n : Nat) : List Char :=
  [digitChar (n / 100 % 10), digitChar (n / 10 % 10), digitChar (n % 10)]

/-- Four-digit zero-padded decimal rendering. -/
def pad4 (n : Nat) : List Char :=
  [digitChar (n / 1000 % 10), digitChar (n / 100 % 10),
   digitChar (n / 10 % 10), digitChar (n % 10)]

/-- Characters of the snapshot name: new Date().toISOString() with every
':' and '.' replaced by '-' (part_001 lines 166-167), i.e.
YYYY-MM-DDTHH-MM-SS-mmmZ. -/
def snapNameChars (dt : DateTime) : List Char :=
  pad4 dt.year ++ ('-' :: (pad2 dt.month ++ ('-' :: (pad2 dt.day ++
    ('T' :: (pad2 dt.hour ++ ('-' :: (pad2 dt.minute ++ ('-' :: (pad2 dt.second ++
      ('-' :: (pad3 dt.millis ++ ['Z']))))))))))))

/-- The snapshot name derived from the creation instant. -/
def snapName (dt : DateTime) : String := String.mk (snapNameChars dt)

/-- Chronological order on broken-down instants: lexicographic on
(year, month, day, hour, minute, second, millisecond). -/
def dtLt (a b : DateTime) : Prop :=
  a.year < b.year ∨ (a.year = b.year ∧
    (a.month < b.month ∨ (a.month = b.month ∧
      (a.day < b.day ∨ (a.day = b.day ∧
        (a.hour < b.hour ∨ (a.hour = b.hour ∧
          (a.minute < b.minute ∨ (a.minute = b.minute ∧
            (a.second < b.second ∨ (a.second = b.second ∧
              a.millis < b.millis)))))))))))

/-- Field bounds under which the fixed-width ISO rendering is faithful
(every real toISOString output satisfies them). -/
def isoBounded (dt : DateTime) : Prop :=
  dt.year ≤ 9999 ∧ dt.month ≤ 99 ∧ dt.day ≤ 99 ∧ dt.hour ≤ 99 ∧
    dt.minute ≤ 99 ∧ dt.second ≤ 99 ∧ dt.millis ≤ 999

instance (a b : DateTime) : Decidable (dtLt a b) :=
  inferInstanceAs (Decidable (a.year < b.year ∨ (a.year = b.year ∧
    (a.month < b.month ∨ (a.month = b.month ∧
      (a.day < b.day ∨ (a.day = b.day ∧
        (a.hour < b.hour ∨ (a.hour = b.hour ∧
          (a.minute < b.minute ∨ (a.minute = b.minute ∧
            (a.second < b.second ∨ (a.second = b.second ∧
              a.millis < b.millis)))))))))))))

instance (dt : DateTime) : Decidable (isoBounded dt) :=
  inferInstanceAs (Decidable (dt.year ≤ 9999 ∧ dt.month ≤ 99 ∧ dt.day ≤ 99 ∧
    dt.hour ≤ 99 ∧ dt.minute ≤ 99 ∧ dt.second ≤ 99 ∧ dt.millis ≤ 999))

/-- Result object of a successful createSnapshot
(part_001 lines 229-233). -/
structure SnapResult where
  id : Nat
  name : String
  count : Nat
deriving DecidableEq, Repr

/-- SQLite's ordering on TEXT columns: lexicographic comparison of the
character data. -/
def strLt (s t : String) : Prop := List.lt s.data t.data

instance : DecidableRel strLt := fun s t =>
  List.hasDecidableLt s.data t.data

/-- ORDER BY user_id, message_count DESC on the activity read that feeds
the snapshot copy (part_001 lines 181-191). -/
def actOrd (a b : ActivityRow) : Prop :=
  strLt a.user_id b.user_id ∨
    (a.user_id = b.user_id ∧ b.message_count ≤ a.message_count)

instance : DecidableRel actOrd := fun a b =>
  inferInstanceAs (Decidable (strLt a.user_id b.user_id ∨
    (a.user_id = b.user_id ∧ b.message_count ≤ a.message_count)))

/-- createSnapshot (part_001 lines 164-245).  Inside the BEGIN/COMMIT
transaction: insert the snapshot row (failing if the UNIQUE name is
taken), read the whole activity store, roll back as a null no-op when it
is empty, otherwise bulk-copy every row into snapshot_data (the source
does this in batches of 1000 rows; the copied rows are the same).  Any
caught error rolls back to the saved state and returns null. -/
def createSnapshot (db : DB) (now : Nat) (dt : DateTime) :
    DB × Option SnapResult :=
  let name := snapName dt
  if db.snapshots.any (fun s => s.name == name) then (db, none)
  else
    let id := nextId db
    let snap : SnapshotRow := { id := id, name := name, created_at := now }
    let tdb := { db with snapshots := db.snapshots ++ [snap], seq := id }
    let data := List.insertionSort actOrd db.channel_activity
    if data.isEmpty then (db, none)
    else
      let rows := data.map (fun a =>
        SnapshotDataRow.mk id a.user_id a.username a.roles a.channel_id
          a.channel_name a.message_count)
      ({ tdb with snapshot_data := tdb.snapshot_data ++ rows },
       some { id := id, name := name, count := data.length })

/-- createSnapshot with fault injection: failAt = some k makes the k-th
awaited statement inside the open transaction throw, after which the
source's catch handler rolls back and returns null.  Statement 0 is the
INSERT INTO snapshots (a UNIQUE-name violation fails it regardless of
failAt), statement 1 the activity SELECT, statements 2 .. 2+batches-1 the
batched INSERTs into snapshot_data, and statement 2+batches the COMMIT. -/
def createSnapshotF (db : DB) (now : Nat) (dt : DateTime)
    (failAt : Option Nat) : DB × Option SnapResult :=
  let name := snapName dt
  if failAt = some 0 then (db, none)
  else if db.snapshots.any (fun s => s.name == name) then (db, none)
  else
    let id := nextId db
    let snap : SnapshotRow := { id := id, name := name, created_at := now }
    let tdb := { db with snapshots := db.snapshots ++ [snap], seq := id }
    if failAt = some 1 then (db, none)
    else
      let data := List.insertionSort actOrd db.channel_activity
      if data.isEmpty then (db, none)
      else
        let rows := data.map (fun a =>
          SnapshotDataRow.mk id a.user_id a.username a.roles a.channel_id
            a.channel_name a.message_count)
        let fdb := { tdb with snapshot_data := tdb.snapshot_data ++ rows }
        match failAt with
        | some k =>
          if 2 ≤ k ∧ k < 2 + (data.length + 999) / 1000 + 1 then (db, none)
          else (fdb, some { id := id, name := name, count := data.length })
        | none => (fdb, some { id := id, name := name, count := data.length })

/-- Number of awaited statements inside createSnapshot's transaction:
the snapshot INSERT, the activity SELECT, one INSERT per 1000-row batch,
and the COMMIT. -/
def createStmtCount (db : DB) : Nat :=
  3 + (db.channel_activity.length + 999) / 1000

/-- Outcome of the DELETE /api/snapshots/:id route (server.js
lines 46-97). -/
inductive DeleteResult where
  | notFound
  | ok (autoIncrementReset : Bool)
  | storageError
deriving DecidableEq, Repr

/-- The DELETE /api/snapshots/:id route (server.js lines 46-97): 404 when
the id does not exist; otherwise, inside one transaction, delete the
snapshot_data rows and the snapshot row, and - only when the deleted id
was the current maximum - reset the sqlite_sequence watermark to the new
maximum remaining id (or 0 when none remain). -/
def deleteSnapshot (db : DB) (sid : Nat) : DB × DeleteResult :=
  if db.snapshots.any (fun s => s.id == sid) then
    let isLast := sid = maxIdOr0 db.snapshots
    let db1 := { db with
      snapshot_data := db.snapshot_data.filter (fun r => !(r.snapshot_id == sid)) }
    let db2 := { db1 with
      snapshots := db1.snapshots.filter (fun s => !(s.id == sid)) }
    if isLast then
      ({ db2 with seq := maxIdOr0 db2.snapshots }, DeleteResult.ok true)
    else
      (db2, DeleteResult.ok false)
  else (db, DeleteResult.notFound)

/-- The same route with fault injection: failAt = some k makes the k-th
awaited statement inside the open transaction throw, after which the
route's catch handler rolls back and answers 500.  Statement 0 deletes
from snapshot_data, statement 1 from snapshots; on the maximum id the
watermark UPDATE is statement 2 and the COMMIT statement 3, otherwise the
COMMIT is statement 2. -/
def deleteSnapshotF (db : DB) (sid : Nat) (failAt : Option Nat) :
    DB × DeleteResult :=
  if db.snapshots.any (fun s => s.id == sid) then
    let isLast := sid = maxIdOr0 db.snapshots
    if failAt = some 0 then (db, DeleteResult.storageError)
    else
      let db1 := { db with
        snapshot_data := db.snapshot_data.filter (fun r => !(r.snapshot_id == sid)) }
      if failAt = some 1 then (db, DeleteResult.storageError)
      else
        let db2 := { db1 with
          snapshots := db1.snapshots.filter (fun s => !(s.id == sid)) }
        if isLast then
          if failAt = some 2 then (db, DeleteResult.storageError)
          else
            if failAt = some 3 then (db, DeleteResult.storageError)
            else ({ db2 with seq := maxIdOr0 db2.snapshots }, DeleteResult.ok true)
        else
          if failAt = some 2 then (db, DeleteResult.storageError)
          else (db2, DeleteResult.ok false)
  else (db, DeleteResult.notFound)

/-- Number of awaited statements inside the delete route's transaction. -/
def deleteStmtCount (db : DB) (sid : Nat) : Nat :=
  if sid = maxIdOr0 db.snapshots then 4 else 3

/-- One channel line of the per-user breakdown returned by
GET /api/snapshots/:id (server.js lines 152-156). -/
structure ChannelEntry where
  channel_id : String
  channel_name : String
  message_count : Nat
deriving DecidableEq, Repr

/-- One per-user aggregate of GET /api/snapshots/:id
(server.js lines 124-134 and 159-162). -/
structure UserEntry where
  user_id : String
  username : String
  roles : String
  total_messages : Nat
  channels : List ChannelEntry
deriving DecidableEq, Repr

/-- The full response of GET /api/snapshots/:id
(server.js lines 164-167). -/
structure SnapshotView where
  snapshot : SnapshotRow
  users : List UserEntry
deriving DecidableEq, Repr

/-- ORDER BY user_id, message_count DESC on the channel-activity read
of the snapshot detail route (server.js lines 136-145). -/
def chanOrd (a b : SnapshotDataRow) : Prop :=
  strLt a.user_id b.user_id ∨
    (a.user_id = b.user_id ∧ b.message_count ≤ a.message_count)

instance : DecidableRel chanOrd := fun a b =>
  inferInstanceAs (Decidable (strLt a.user_id b.user_id ∨
    (a.user_id = b.user_id ∧ b.message_count ≤ a.message_count)))

/-- ORDER BY total_messages DESC on the grouped user read
(server.js lines 124-134). -/
def userOrd (a b : UserEntry) : Prop :=
  b.total_messages ≤ a.total_messages

instance : DecidableRel userOrd := fun a b =>
  inferInstanceAs (Decidable (b.total_messages ≤ a.total_messages))

/-- GET /api/snapshots/:id (server.js lines 99-172): 404 when the id does
not exist; otherwise the snapshot metadata together with one entry per
distinct user of its snapshot_data rows, carrying SUM(message_count) and
the user's per-channel rows (the GROUP BY representative for
username/roles is an arbitrary row of the group; we take the first). -/
def mkUserEntries (rows : List SnapshotDataRow) : List UserEntry :=
  ((rows.map (fun r => r.user_id)).dedup).map (fun u =>
    let urows := rows.filter (fun r => r.user_id == u)
    let uchans := (List.insertionSort chanOrd rows).filter
      (fun r => r.user_id == u)
    { user_id := u
      username := ((urows.head?).map (fun r => r.username)).getD ""
      roles := ((urows.head?).map (fun r => r.roles)).getD ""
      total_messages := (urows.map (fun r => r.message_count)).sum
      channels := uchans.map (fun r =>
        ChannelEntry.mk r.channel_id r.channel_name r.message_count) })

/-- The route itself: look up the snapshot, filter its snapshot_data rows,
aggregate them per user, order users by total descending. -/
def getSnapshot (db : DB) (sid : Nat) : Option SnapshotView :=
  match db.snapshots.find? (fun s => s.id == sid) with
  | none => none
  | some snap =>
    let rows := db.snapshot_data.filter (fun r => r.snapshot_id == sid)
    some { snapshot := snap,
           users := List.insertionSort userOrd (mkUserEntries rows) }

/-- ORDER BY created_at DESC on the retention read
(part_001 lines 249-253): newest first. -/
def snapNewerFirst (a b : SnapshotRow) : Prop :=
  b.created_at ≤ a.created_at

instance : DecidableRel snapNewerFirst := fun a b =>
  inferInstanceAs (Decidable (b.created_at ≤ a.created_at))

instance : IsTotal SnapshotRow snapNewerFirst :=
  ⟨fun a b => (Nat.le_total a.created_at b.created_at).symm⟩

instance : IsTrans SnapshotRow snapNewerFirst :=
  ⟨fun _ _ _ hab hbc => Nat.le_trans hbc hab⟩

/-- cleanupOldSnapshots (part_001 lines 247-283): list all snapshot ids
newest-created first; when more than keepCount exist, transactionally
delete every snapshot beyond the newest keepCount together with its
snapshot_data rows. -/
def cleanupOldSnapshots (db : DB) (keepCount : Nat) : DB :=
  let snaps := List.insertionSort snapNewerFirst db.snapshots
  if snaps.length ≤ keepCount then db
  else
    let toDelete := (snaps.drop keepCount).map (fun s => s.id)
    { db with
      snapshot_data := db.snapshot_data.filter
        (fun r => !(toDelete.contains r.snapshot_id))
      snapshots := db.snapshots.filter
        (fun s => !(toDelete.contains s.id)) }

/-- The JavaScript default parameter keepCount = 100 of
cleanupOldSnapshots (part_001 line 247), applied at every call site that
passes no second argument. -/
def DEFAULT_KEEP_COUNT : Nat := 100

/-- One millisecond-denominated hour, as in the scheduler's clock-skew
buffer (part_001 line 311). -/
def HOUR_MS : Int := 60 * 60 * 1000

/-- SNAPSHOT_INTERVAL = 1000 * 4 * 60 * 60 milliseconds
(part_001 line 302). -/
def SNAPSHOT_INTERVAL : Int := 1000 * 4 * 60 * 60

/-- SELECT created_at FROM snapshots ORDER BY created_at DESC LIMIT 1
(part_001 lines 285-299); the source appends 'Z' so the stored timestamp
is read as UTC, which the abstract instant already is. -/
def getLastSnapshotTime (db : DB) : Option Nat :=
  (db.snapshots.map (fun s => s.created_at)).max?

/-- The initial timer delay computed at scheduler startup (part_001
lines 306-324): with a previous snapshot, elapsed time is measured from
now minus a one-hour skew buffer; a full interval already elapsed means
delay 0, otherwise wait out the remainder.  With no previous snapshot the
delay stays 0. -/
def initialDelay (nowMs : Int) (lastSnapshotTime : Option Int) : Int :=
  match lastSnapshotTime with
  | none => 0
  | some t =>
    let adjustedNow := nowMs - 1 * HOUR_MS
    let timeSinceLastSnapshot := adjustedNow - t
    if timeSinceLastSnapshot < SNAPSHOT_INTERVAL then
      SNAPSHOT_INTERVAL - timeSinceLastSnapshot
    else 0

/-- An action the scheduler performs: a createSnapshot call or a
cleanupOldSnapshots call with the given keep count. -/
inductive SchedEvent where
  | create
  | prune (keepCount : Nat)
deriving DecidableEq, Repr

/-- The scheduler's behaviour as set up by setupAutomaticSnapshots
(part_001 lines 301-340): immediateEvents run (sequentially awaited)
before the timer is armed - a catch-up create-then-prune exactly when no
snapshot exists; then setTimeout(timerDelay) both arms
setInterval(SNAPSHOT_INTERVAL) and immediately fires once, so the
recurring phase fires firingEvents at timerDelay + k * SNAPSHOT_INTERVAL
for every k, each firing awaiting createSnapshot then
cleanupOldSnapshots with the default keep count. -/
structure SchedulerPlan where
  immediateEvents : List SchedEvent
  timerDelay : Int
  firingEvents : List SchedEvent
deriving DecidableEq, Repr

/-- setupAutomaticSnapshots (part_001 lines 301-340). -/
def setupAutomaticSnapshots (nowMs : Int) (lastSnapshotTime : Option Int) :
    SchedulerPlan :=
  { immediateEvents :=
      match lastSnapshotTime with
      | none => [SchedEvent.create, SchedEvent.prune DEFAULT_KEEP_COUNT]
      | some _ => []
    timerDelay := initialDelay nowMs lastSnapshotTime
    firingEvents := [SchedEvent.create, SchedEvent.prune DEFAULT_KEEP_COUNT] }

/-- Absolute offset (from scheduler start) of the k-th recurring firing:
the setTimeout callback fires immediately (k = 0) and every interval
thereafter. -/
def planFiringTime (p : SchedulerPlan) (k : Nat) : Int :=
  p.timerDelay + k * SNAPSHOT_INTERVAL

/-- Iterated ingestion: the activity-store state after a sequence of
recordMessage calls for one (user, channel) identity. -/
def applyMessages (rows : List ActivityRow) (uid cid : String)
    (ms : List MsgInfo) : List ActivityRow :=
  ms.foldl (fun rs m => recordMessage rs uid cid m) rows

/-! ### Concrete instances used by witnesses and counterexamples -/

/-- A live activity row: user u1 in channel c1. -/
def exAct : ActivityRow :=
  { user_id := "u1", username := "alice", roles := "Prover", channel_id := "c1",
    channel_name := "general", message_count := 2, last_message := 50 }

/-- A second channel of the same user. -/
def exAct2 : ActivityRow :=
  { user_id := "u1", username := "alice", roles := "Prover", channel_id := "c2",
    channel_name := "dev", message_count := 3, last_message := 60 }

/-- A second user. -/
def exAct3 : ActivityRow :=
  { user_id := "u2", username := "bob", roles := "Proofer", channel_id := "c1",
    channel_name := "general", message_count := 5, last_message := 70 }

/-- A sample creation instant. -/
def dt0 : DateTime := ⟨2025, 3, 14, 9, 26, 53, 589⟩

/-- A later creation instant. -/
def dt1 : DateTime := ⟨2025, 3, 14, 9, 26, 53, 590⟩

/-- A database whose activity store is empty. -/
def dbEmpty : DB :=
  { channel_activity := [], snapshots := [], snapshot_data := [], seq := 0 }

/-- A database with live activity and no snapshots yet. -/
def dbLive : DB :=
  { channel_activity := [exAct, exAct2, exAct3], snapshots := [],
    snapshot_data := [], seq := 0 }

/-- A database holding snapshots with ids 1, 2, 3 (watermark 3), as in the
deletion-reclamation example. -/
def dbThree : DB :=
  { channel_activity := [exAct],
    snapshots := [⟨1, "s1", 10⟩, ⟨2, "s2", 20⟩, ⟨3, "s3", 30⟩],
    snapshot_data := [], seq := 3 }

/-- A database holding five snapshots, as in the retention example. -/
def dbFive : DB :=
  { channel_activity := [exAct],
    snapshots := [⟨1, "s1", 10⟩, ⟨2, "s2", 20⟩, ⟨3, "s3", 30⟩,
                  ⟨4, "s4", 40⟩, ⟨5, "s5", 50⟩],
    snapshot_data := [⟨1, "u1", "alice", "Prover", "c1", "general", 2⟩,
                      ⟨5, "u1", "alice", "Prover", "c1", "general", 9⟩],
    seq := 5 }

/-- A sample message payload. -/
def msgA : MsgInfo :=
  { username := "alice", roles := "Prover", channel_name := "general", time := 51 }

/-- A later message payload with changed descriptive fields. -/
def msgB : MsgInfo :=
  { username := "alice2", roles := "Prover, Super Prover",
    channel_name := "general-renamed", time := 52 }

/-- The activity row holding identity (uid, cid) with payload m and
count n; the shape recordMessage writes. -/
def mkRec (uid cid : String) (m : MsgInfo) (n : Nat) : ActivityRow :=
  { user_id := uid, username := m.username, roles := m.roles, channel_id := cid,
    channel_name := m.channel_name, message_count := n, last_message := m.time }

/-- The state after one successful snapshot of the live database at
instant dt0: used to exhibit the same-instant name collision. -/
def dbAfterFirst : DB := (createSnapshot dbLive 100 dt0).1

/-! ### Helper lemmas -/

/-- recordMessage on a store holding no row for the identity appends a
fresh row with message_count 1. -/
theorem recordMessage_fresh (rows : List ActivityRow) (uid cid : String)
    (m : MsgInfo) (h0 : ∀ r ∈ rows, ¬(r.user_id = uid ∧ r.channel_id = cid)) :
    recordMessage rows uid cid m = rows ++ [mkRec uid cid m 1] := by
  have hc : ¬ ((rows.any fun r => r.user_id == uid && r.channel_id == cid) = true) := by
    simp only [List.any_eq_true, Bool.and_eq_true, beq_iff_eq]
    rintro ⟨r, hr, h1, h2⟩
    exact h0 r hr ⟨h1, h2⟩
  unfold recordMessage
  rw [if_neg hc]
  rfl

/-- recordMessage on a store whose single row for the identity sits at the
end increments its count and overwrites the descriptive fields. -/
theorem recordMessage_bump (rows : List ActivityRow) (uid cid : String)
    (m prev : MsgInfo) (n : Nat)
    (h0 : ∀ r ∈ rows, ¬(r.user_id = uid ∧ r.channel_id = cid)) :
    recordMessage (rows ++ [mkRec uid cid prev n]) uid cid m =
      rows ++ [mkRec uid cid m (n + 1)] := by
  have hc : ((rows ++ [mkRec uid cid prev n]).any
      fun r => r.user_id == uid && r.channel_id == cid) = true := by
    simp [mkRec]
  unfold recordMessage
  rw [if_pos hc, List.map_append]
  congr 1
  · have hid : ∀ r ∈ rows,
        (if r.user_id == uid && r.channel_id == cid then
          { r with username := m.username, roles := m.roles,
                   channel_name := m.channel_name,
                   message_count := r.message_count + 1,
                   last_message := m.time }
         else r) = r := by
      intro r hr
      rw [if_neg]
      simp only [Bool.and_eq_true, beq_iff_eq]
      intro h
      exact h0 r hr h
    calc rows.map _ = rows.map id := List.map_congr_left hid
    _ = rows := List.map_id rows
  · simp [mkRec]

/-- Iterating recordMessage over further calls keeps the single identity
row, accumulating the count and keeping the last call's fields. -/
theorem applyMessages_bump (rows : List ActivityRow) (uid cid : String)
    (h0 : ∀ r ∈ rows, ¬(r.user_id = uid ∧ r.channel_id = cid)) :
    ∀ (ms : List MsgInfo) (prev : MsgInfo) (n : Nat),
      applyMessages (rows ++ [mkRec uid cid prev n]) uid cid ms =
        rows ++ [mkRec uid cid (ms.getLastD prev) (n + ms.length)] := by
  intro ms
  induction ms with
  | nil => intro prev n; simp [applyMessages]
  | cons m ms ih =>
    intro prev n
    show applyMessages
      (recordMessage (rows ++ [mkRec uid cid prev n]) uid cid m) uid cid ms = _
    rw [recordMessage_bump rows uid cid m prev n h0, ih m (n + 1)]
    have hlast : (m :: ms).getLastD prev = ms.getLastD m :=
      List.getLastD_cons prev m ms
    have hn : n + 1 + ms.length = n + (ms.length + 1) := by omega
    rw [hlast, List.length_cons, hn]

/-! ### Claim theorems -/

/-- C3: on a database whose ActivityStore (channel_activity) holds zero
rows, createSnapshot returns null and leaves the state - including the
Snapshot and SnapshotRecord tables and the watermark - unchanged: the
snapshot row inserted inside the transaction is rolled back. -/
theorem createSnapshot_empty_store_noop (db : DB) (now : Nat) (dt : DateTime)
    (h : db.channel_activity = []) :
    createSnapshot db now dt = (db, none) := by
  simp only [createSnapshot]
  rw [h]
  split
  · rfl
  · rfl

theorem createSnapshot_empty_store_noop_witness :
    dbEmpty.channel_activity = [] ∧ createSnapshot dbEmpty 0 dt0 = (dbEmpty, none) :=
  ⟨rfl, createSnapshot_empty_store_noop dbEmpty 0 dt0 rfl⟩

/-- C7: at startup with a previous snapshot, the scheduler measures
elapsed = (now - 1 hour skew) - last_created_at; a full 4-hour interval
already elapsed gives initial delay 0 (immediate firing) - in particular
a snapshot created 5 hours ago - and otherwise the first firing waits
exactly interval - elapsed. -/
theorem scheduler_catchup_initial_delay (nowMs t : Int) :
    (SNAPSHOT_INTERVAL ≤ nowMs - 1 * HOUR_MS - t →
      initialDelay nowMs (some t) = 0)
    ∧ (nowMs - 1 * HOUR_MS - t < SNAPSHOT_INTERVAL →
      initialDelay nowMs (some t) =
        SNAPSHOT_INTERVAL - (nowMs - 1 * HOUR_MS - t))
    ∧ initialDelay (6 * HOUR_MS) (some (1 * HOUR_MS)) = 0 := by
  refine ⟨fun h => ?_, fun h => ?_, by decide⟩ <;>
  · simp only [initialDelay, HOUR_MS, SNAPSHOT_INTERVAL] at h ⊢
    split <;> omega

theorem scheduler_catchup_initial_delay_witness :
    SNAPSHOT_INTERVAL ≤ 6 * HOUR_MS - 1 * HOUR_MS - 1 * HOUR_MS ∧
      initialDelay (6 * HOUR_MS) (some (1 * HOUR_MS)) = 0 :=
  ⟨by decide, (scheduler_catchup_initial_delay (6 * HOUR_MS) (1 * HOUR_MS)).1 (by decide)⟩

/-- C8: at startup with no snapshot, the scheduler performs exactly one
immediate create-then-prune, then enters the recurring phase with zero
initial delay, whose k-th firing happens at k * SNAPSHOT_INTERVAL and
runs create then prune sequentially. -/
theorem scheduler_no_snapshot_startup (nowMs : Int) :
    (setupAutomaticSnapshots nowMs none).immediateEvents =
      [SchedEvent.create, SchedEvent.prune DEFAULT_KEEP_COUNT]
    ∧ (setupAutomaticSnapshots nowMs none).timerDelay = 0
    ∧ (setupAutomaticSnapshots nowMs none).firingEvents =
      [SchedEvent.create, SchedEvent.prune DEFAULT_KEEP_COUNT]
    ∧ ∀ k : Nat, planFiringTime (setupAutomaticSnapshots nowMs none) k =
        k * SNAPSHOT_INTERVAL :=
  ⟨rfl, rfl, rfl, fun k => by
    simp [planFiringTime, setupAutomaticSnapshots, initialDelay]⟩

/-- C2: starting from a store with no row for the (uid, cid) identity,
N = 1 + ms.length recordMessage calls leave exactly one ActivityRecord
for the identity, whose message_count is N and whose username, roles and
channel_name are the values supplied in the last call (the upsert is a
single statement, modelled as one state transition per call). -/
theorem recordMessage_upsert_counts (uid cid : String)
    (rows0 : List ActivityRow)
    (h0 : ∀ r ∈ rows0, ¬(r.user_id = uid ∧ r.channel_id = cid))
    (m : MsgInfo) (ms : List MsgInfo) :
    (applyMessages rows0 uid cid (m :: ms)).countP
        (fun r => r.user_id == uid && r.channel_id == cid) = 1
    ∧ ∀ r ∈ applyMessages rows0 uid cid (m :: ms),
        r.user_id = uid → r.channel_id = cid →
          r.message_count = (m :: ms).length
          ∧ r.username = ((m :: ms).getLastD m).username
          ∧ r.roles = ((m :: ms).getLastD m).roles
          ∧ r.channel_name = ((m :: ms).getLastD m).channel_name := by
  have hfirst : applyMessages rows0 uid cid (m :: ms) =
      applyMessages (rows0 ++ [mkRec uid cid m 1]) uid cid ms := by
    show applyMessages (recordMessage rows0 uid cid m) uid cid ms = _
    rw [recordMessage_fresh rows0 uid cid m h0]
  have hfin : applyMessages rows0 uid cid (m :: ms) =
      rows0 ++ [mkRec uid cid (ms.getLastD m) (1 + ms.length)] := by
    rw [hfirst, applyMessages_bump rows0 uid cid h0 ms m 1]
  rw [hfin]
  constructor
  · rw [List.countP_append]
    have h1 : rows0.countP (fun r => r.user_id == uid && r.channel_id == cid) = 0 := by
      rw [List.countP_eq_zero]
      intro r hr
      simp only [Bool.and_eq_true, beq_iff_eq]
      intro hcontra
      exact h0 r hr hcontra
    rw [h1]
    simp [mkRec]
  · intro r hr hu hc
    rcases List.mem_append.mp hr with hr0 | hr1
    · exact absurd ⟨hu, hc⟩ (h0 r hr0)
    · have hreq : r = mkRec uid cid (ms.getLastD m) (1 + ms.length) := by
        simpa using hr1
      subst hreq
      rw [List.getLastD_cons]
      refine ⟨?_, rfl, rfl, rfl⟩
      show 1 + ms.length = ms.length + 1
      omega

theorem recordMessage_upsert_counts_witness :
    (∀ r ∈ ([] : List ActivityRow), ¬(r.user_id = "u1" ∧ r.channel_id = "c1"))
    ∧ (applyMessages [] "u1" "c1" [msgA, msgB]).countP
        (fun r => r.user_id == "u1" && r.channel_id == "c1") = 1 :=
  ⟨by decide,
   (recordMessage_upsert_counts "u1" "c1" [] (by decide) msgA [msgB]).1⟩

/-- C1: deleting the snapshot holding the current maximum id resets the
sqlite_sequence watermark to the maximum remaining id (or 0), so the next
created snapshot - whose id createSnapshot draws from nextId - reuses the
freed tail; deleting a non-maximal snapshot leaves the watermark
untouched.  Concretely on live ids 1, 2, 3: after deleting 3 the next id
is 3 again, after deleting 2 it is 4. -/
theorem delete_watermark_reclamation (db : DB) (sid : Nat)
    (hmem : sid ∈ db.snapshots.map (fun s => s.id)) :
    (sid = maxIdOr0 db.snapshots →
      (deleteSnapshot db sid).1.seq = maxIdOr0 (deleteSnapshot db sid).1.snapshots
      ∧ (deleteSnapshot db sid).2 = DeleteResult.ok true
      ∧ nextId (deleteSnapshot db sid).1 =
          maxIdOr0 (deleteSnapshot db sid).1.snapshots + 1)
    ∧ (sid ≠ maxIdOr0 db.snapshots →
      (deleteSnapshot db sid).1.seq = db.seq
      ∧ (deleteSnapshot db sid).2 = DeleteResult.ok false)
    ∧ (∀ (d : DB) (n : Nat) (dt : DateTime) (res : SnapResult),
        (createSnapshot d n dt).2 = some res → res.id = nextId d)
    ∧ nextId (deleteSnapshot dbThree 3).1 = 3
    ∧ nextId (deleteSnapshot dbThree 2).1 = 4 := by
  have hex : ∃ x ∈ db.snapshots, x.id = sid := by
    rcases List.mem_map.mp hmem with ⟨s, hs, hid⟩
    exact ⟨s, hs, hid⟩
  refine ⟨?_, ?_, ?_, by decide, by decide⟩
  · intro hlast
    subst hlast
    refine ⟨?_, ?_, ?_⟩ <;> simp [deleteSnapshot, hex, nextId]
  · intro hlast
    refine ⟨?_, ?_⟩ <;> simp [deleteSnapshot, hex, hlast]
  · intro d n dt res h
    simp only [createSnapshot] at h
    split at h
    · simp at h
    · split at h
      · simp at h
      · simp only [Option.some.injEq] at h
        rw [← h]

theorem delete_watermark_reclamation_witness :
    (3 ∈ dbThree.snapshots.map (fun s => s.id))
    ∧ 3 = maxIdOr0 dbThree.snapshots
    ∧ (deleteSnapshot dbThree 3).1.seq =
        maxIdOr0 (deleteSnapshot dbThree 3).1.snapshots :=
  ⟨by decide, by decide,
   ((delete_watermark_reclamation dbThree 3 (by decide)).1 (by decide)).1⟩

/-- Unfolding cleanupOldSnapshots when more snapshots exist than the keep
count: both tables are filtered by the ids beyond the newest keepCount. -/
theorem cleanup_unfold_large (db : DB) (k : Nat)
    (hk : ¬ ((List.insertionSort snapNewerFirst db.snapshots).length ≤ k)) :
    cleanupOldSnapshots db k = { db with
      snapshot_data := db.snapshot_data.filter (fun r =>
        !((((List.insertionSort snapNewerFirst db.snapshots).drop k).map
            (fun s => s.id)).contains r.snapshot_id))
      snapshots := db.snapshots.filter (fun s =>
        !((((List.insertionSort snapNewerFirst db.snapshots).drop k).map
            (fun s => s.id)).contains s.id)) } := by
  simp only [cleanupOldSnapshots]
  rw [if_neg hk]

/-- No id beyond the newest keepCount appears among the newest keepCount:
the listing's ids are pairwise distinct. -/
theorem take_id_not_deleted (db : DB) (k : Nat)
    (hids : (db.snapshots.map (fun s => s.id)).Nodup) :
    ∀ s ∈ (List.insertionSort snapNewerFirst db.snapshots).take k,
      s.id ∉ (((List.insertionSort snapNewerFirst db.snapshots).drop k).map
        (fun s => s.id)) := by
  have hperm : List.Perm (List.insertionSort snapNewerFirst db.snapshots)
      db.snapshots := List.perm_insertionSort _ _
  have hnd : ((List.insertionSort snapNewerFirst db.snapshots).map
      (fun s => s.id)).Nodup := ((hperm.map (fun s => s.id)).symm).nodup hids
  intro s hsT hsDel
  have hnd2 : (((List.insertionSort snapNewerFirst db.snapshots).take k).map
        (fun s => s.id) ++
      ((List.insertionSort snapNewerFirst db.snapshots).drop k).map
        (fun s => s.id)).Nodup := by
    rw [← List.map_append, List.take_append_drop]
    exact hnd
  exact (List.nodup_append.mp hnd2).2.2 (List.mem_map_of_mem _ hsT) hsDel

/-- The survivors of a cleanup are, up to permutation, the newest
keepCount snapshots of the creation-ordered listing. -/
theorem cleanup_snapshots_perm (db : DB) (k : Nat)
    (hids : (db.snapshots.map (fun s => s.id)).Nodup) :
    List.Perm (cleanupOldSnapshots db k).snapshots
      ((List.insertionSort snapNewerFirst db.snapshots).take k) := by
  have hperm : List.Perm (List.insertionSort snapNewerFirst db.snapshots)
      db.snapshots := List.perm_insertionSort _ _
  by_cases hle : (List.insertionSort snapNewerFirst db.snapshots).length ≤ k
  · have hcl : cleanupOldSnapshots db k = db := by
      simp only [cleanupOldSnapshots]
      rw [if_pos hle]
    rw [hcl, List.take_of_length_le hle]
    exact hperm.symm
  · rw [cleanup_unfold_large db k hle]
    have key : ∀ (p : SnapshotRow → Bool),
        (∀ s ∈ (List.insertionSort snapNewerFirst db.snapshots).take k, p s = true) →
        (∀ t ∈ (List.insertionSort snapNewerFirst db.snapshots).drop k, ¬ p t = true) →
        (List.insertionSort snapNewerFirst db.snapshots).filter p =
          (List.insertionSort snapNewerFirst db.snapshots).take k := by
      intro p hkeep hdrop
      conv_lhs => rw [← List.take_append_drop k
        (List.insertionSort snapNewerFirst db.snapshots)]
      rw [List.filter_append, List.filter_eq_self.mpr hkeep,
        List.filter_eq_nil_iff.mpr hdrop, List.append_nil]
    have hkeep : ∀ s ∈ (List.insertionSort snapNewerFirst db.snapshots).take k,
        (!((((List.insertionSort snapNewerFirst db.snapshots).drop k).map
          (fun s => s.id)).contains s.id)) = true := by
      intro s hsT
      simpa using take_id_not_deleted db k hids s hsT
    have hdrop : ∀ t ∈ (List.insertionSort snapNewerFirst db.snapshots).drop k,
        ¬ ((!((((List.insertionSort snapNewerFirst db.snapshots).drop k).map
          (fun s => s.id)).contains t.id)) = true) := by
      intro t htD
      have ht : t.id ∈ (((List.insertionSort snapNewerFirst db.snapshots).drop k).map
          (fun s => s.id)) := List.mem_map_of_mem _ htD
      simpa using ht
    have h2 := key _ hkeep hdrop
    rw [← h2]
    exact (hperm.filter _).symm

/-- The number of snapshots surviving a cleanup. -/
theorem cleanup_snapshots_length (db : DB) (k : Nat)
    (hids : (db.snapshots.map (fun s => s.id)).Nodup) :
    (cleanupOldSnapshots db k).snapshots.length = min db.snapshots.length k := by
  have h1 := (cleanup_snapshots_perm db k hids).length_eq
  rw [List.length_take,
    (List.perm_insertionSort snapNewerFirst db.snapshots).length_eq] at h1
  rw [h1, Nat.min_comm]

/-- C10: every scheduler-driven prune - the catch-up one and every
recurring firing - calls cleanupOldSnapshots without a keep count, so the
JavaScript default parameter 100 applies; the effective retention bound
under scheduled operation is therefore exactly 100 snapshots. -/
theorem scheduler_default_keep_count (db : DB) (nowMs : Int)
    (last : Option Int) (hids : (db.snapshots.map (fun s => s.id)).Nodup) :
    (∀ c, SchedEvent.prune c ∈
        (setupAutomaticSnapshots nowMs last).immediateEvents → c = 100)
    ∧ (∀ c, SchedEvent.prune c ∈
        (setupAutomaticSnapshots nowMs last).firingEvents → c = 100)
    ∧ DEFAULT_KEEP_COUNT = 100
    ∧ (cleanupOldSnapshots db DEFAULT_KEEP_COUNT).snapshots.length =
        min db.snapshots.length 100 := by
  refine ⟨?_, ?_, rfl, cleanup_snapshots_length db 100 hids⟩
  · intro c hc
    cases last with
    | none =>
      simp only [setupAutomaticSnapshots, List.mem_cons, List.not_mem_nil,
        or_false] at hc
      rcases hc with h | h
      · exact absurd h (by simp)
      · injection h with h
    | some t =>
      simp [setupAutomaticSnapshots] at hc
  · intro c hc
    simp only [setupAutomaticSnapshots, List.mem_cons, List.not_mem_nil,
      or_false] at hc
    rcases hc with h | h
    · exact absurd h (by simp)
    · injection h with h

theorem scheduler_default_keep_count_witness :
    (dbFive.snapshots.map (fun s => s.id)).Nodup
    ∧ (cleanupOldSnapshots dbFive DEFAULT_KEEP_COUNT).snapshots.length =
        min dbFive.snapshots.length 100 :=
  ⟨by decide, (scheduler_default_keep_count dbFive 0 none (by decide)).2.2.2⟩

/-- C5: with n existing snapshots, prune(keep_count) is a no-op when
n <= keep_count; when n > keep_count it leaves exactly the keep_count
most recently created snapshots (so n - keep_count are deleted, each
strictly older than every survivor) and keeps exactly the SnapshotRecord
rows belonging to the survivors. -/
theorem prune_retention_bound (db : DB) (k : Nat)
    (hids : (db.snapshots.map (fun s => s.id)).Nodup)
    (hts : (db.snapshots.map (fun s => s.created_at)).Nodup)
    (hfk : ∀ r ∈ db.snapshot_data, ∃ s ∈ db.snapshots, r.snapshot_id = s.id) :
    (db.snapshots.length ≤ k → cleanupOldSnapshots db k = db)
    ∧ (k < db.snapshots.length →
        (cleanupOldSnapshots db k).snapshots.length = k
        ∧ (∀ s ∈ (cleanupOldSnapshots db k).snapshots, s ∈ db.snapshots)
        ∧ (∀ s ∈ (cleanupOldSnapshots db k).snapshots, ∀ t ∈ db.snapshots,
            t ∉ (cleanupOldSnapshots db k).snapshots →
              t.created_at < s.created_at)
        ∧ (∀ r ∈ db.snapshot_data,
            r ∈ (cleanupOldSnapshots db k).snapshot_data ↔
              ∃ s ∈ (cleanupOldSnapshots db k).snapshots,
                s.id = r.snapshot_id)) := by
  have hperm : List.Perm (List.insertionSort snapNewerFirst db.snapshots)
      db.snapshots := List.perm_insertionSort _ _
  have hlen : (List.insertionSort snapNewerFirst db.snapshots).length =
      db.snapshots.length := hperm.length_eq
  constructor
  · intro h
    simp only [cleanupOldSnapshots]
    rw [if_pos (by omega)]
  · intro hk
    have hgt : ¬ ((List.insertionSort snapNewerFirst db.snapshots).length ≤ k) := by
      omega
    have hpermT := cleanup_snapshots_perm db k hids
    have hmemT : ∀ s, s ∈ (cleanupOldSnapshots db k).snapshots ↔
        s ∈ (List.insertionSort snapNewerFirst db.snapshots).take k :=
      fun s => hpermT.mem_iff
    refine ⟨?_, ?_, ?_, ?_⟩
    · rw [hpermT.length_eq, List.length_take]
      omega
    · intro s hs
      exact hperm.mem_iff.mp (List.mem_of_mem_take ((hmemT s).mp hs))
    · intro s hs t ht htn
      have hsT : s ∈ (List.insertionSort snapNewerFirst db.snapshots).take k :=
        (hmemT s).mp hs
      have htS : t ∈ List.insertionSort snapNewerFirst db.snapshots :=
        hperm.mem_iff.mpr ht
      have htD : t ∈ (List.insertionSort snapNewerFirst db.snapshots).drop k := by
        have hsplit : t ∈ (List.insertionSort snapNewerFirst db.snapshots).take k ++
            (List.insertionSort snapNewerFirst db.snapshots).drop k := by
          rw [List.take_append_drop]
          exact htS
        rcases List.mem_append.mp hsplit with h1 | h1
        · exact absurd ((hmemT t).mpr h1) htn
        · exact h1
      have hsorted : List.Sorted snapNewerFirst
          (List.insertionSort snapNewerFirst db.snapshots) :=
        List.sorted_insertionSort _ _
      have hpw : List.Pairwise snapNewerFirst
          ((List.insertionSort snapNewerFirst db.snapshots).take k ++
            (List.insertionSort snapNewerFirst db.snapshots).drop k) := by
        rw [List.take_append_drop]
        exact hsorted
      have hrel : t.created_at ≤ s.created_at :=
        (List.pairwise_append.mp hpw).2.2 s hsT t htD
      have hne : s ≠ t := fun he => htn (he ▸ hs)
      have hca : t.created_at ≠ s.created_at := by
        intro he
        exact hne (List.inj_on_of_nodup_map hts
          (hperm.mem_iff.mp (List.mem_of_mem_take hsT)) ht he.symm)
      exact lt_of_le_of_ne hrel hca
    · intro r hr
      have hD : (cleanupOldSnapshots db k).snapshot_data =
          db.snapshot_data.filter (fun r =>
            !((((List.insertionSort snapNewerFirst db.snapshots).drop k).map
              (fun s => s.id)).contains r.snapshot_id)) := by
        rw [cleanup_unfold_large db k hgt]
      have hS : (cleanupOldSnapshots db k).snapshots =
          db.snapshots.filter (fun s =>
            !((((List.insertionSort snapNewerFirst db.snapshots).drop k).map
              (fun s => s.id)).contains s.id)) := by
        rw [cleanup_unfold_large db k hgt]
      rw [hD, hS]
      constructor
      · intro hrin
        rcases List.mem_filter.mp hrin with ⟨hrdb, hq⟩
        rcases hfk r hr with ⟨s, hsdb, heq⟩
        refine ⟨s, List.mem_filter.mpr ⟨hsdb, ?_⟩, heq.symm⟩
        rw [← heq]
        exact hq
      · rintro ⟨s, hsin, hsid⟩
        rcases List.mem_filter.mp hsin with ⟨hsdb, hp⟩
        refine List.mem_filter.mpr ⟨hr, ?_⟩
        exact hsid ▸ hp

theorem prune_retention_bound_witness :
    (dbFive.snapshots.map (fun s => s.id)).Nodup
    ∧ (dbFive.snapshots.map (fun s => s.created_at)).Nodup
    ∧ (∀ r ∈ dbFive.snapshot_data, ∃ s ∈ dbFive.snapshots, r.snapshot_id = s.id)
    ∧ 2 < dbFive.snapshots.length
    ∧ (cleanupOldSnapshots dbFive 2).snapshots.length = 2 :=
  ⟨by decide, by decide, by decide, by decide,
   ((prune_retention_bound dbFive 2 (by decide) (by decide) (by decide)).2
     (by decide)).1⟩

/-- C6: once the transaction is open, a failure at any awaited statement
of snapshot creation or of the snapshot-deletion route rolls the whole
transaction back - the persistent state (all three tables and the
id-sequence watermark) is exactly the pre-call state - and the operation
surfaces as a failure (null from createSnapshot, a storage error from the
delete route). -/
theorem transaction_failure_rollback (db : DB) (now : Nat) (dt : DateTime)
    (sid : Nat) (k : Nat) (hsid : sid ∈ db.snapshots.map (fun s => s.id)) :
    (k < createStmtCount db →
      createSnapshotF db now dt (some k) = (db, none))
    ∧ (k < deleteStmtCount db sid →
      deleteSnapshotF db sid (some k) = (db, DeleteResult.storageError)) := by
  constructor
  · intro hk
    have hlen : (List.insertionSort actOrd db.channel_activity).length =
        db.channel_activity.length := (List.perm_insertionSort _ _).length_eq
    rcases Nat.lt_or_ge k 2 with h2 | h2
    · interval_cases k <;> simp [createSnapshotF]
    · have hk0 : k ≠ 0 := by omega
      have hk1 : k ≠ 1 := by omega
      have hcond : 2 ≤ k ∧
          k < 2 + ((List.insertionSort actOrd db.channel_activity).length + 999)
            / 1000 + 1 := by
        rw [hlen]
        simp only [createStmtCount] at hk
        omega
      simp [createSnapshotF, hk0, hk1, hcond]
      intro _ _
      simp only [createStmtCount] at hk
      omega
  · intro hk
    have hex : ∃ x ∈ db.snapshots, x.id = sid := by
      rcases List.mem_map.mp hsid with ⟨s, hs, hid⟩
      exact ⟨s, hs, hid⟩
    by_cases hl : sid = maxIdOr0 db.snapshots
    · subst hl
      have hk4 : k < 4 := by simpa [deleteStmtCount] using hk
      interval_cases k <;> simp [deleteSnapshotF, hex]
    · have hk3 : k < 3 := by simpa [deleteStmtCount, hl] using hk
      interval_cases k <;> simp [deleteSnapshotF, hex, hl]

theorem transaction_failure_rollback_witness :
    (1 ∈ dbFive.snapshots.map (fun s => s.id))
    ∧ 0 < createStmtCount dbFive
    ∧ createSnapshotF dbFive 60 dt0 (some 0) = (dbFive, none)
    ∧ 0 < deleteStmtCount dbFive 1
    ∧ deleteSnapshotF dbFive 1 (some 0) = (dbFive, DeleteResult.storageError) :=
  ⟨by decide, by decide,
   (transaction_failure_rollback dbFive 60 dt0 1 0 (by decide)).1 (by decide),
   by decide,
   (transaction_failure_rollback dbFive 60 dt0 1 0 (by decide)).2 (by decide)⟩

/-- Every element of a list of naturals is bounded by its foldr max. -/
theorem le_foldr_max (l : List Nat) (x : Nat) (hx : x ∈ l) :
    x ≤ l.foldr max 0 := by
  induction l with
  | nil => cases hx
  | cons a l ih =>
    rcases List.mem_cons.mp hx with h | h
    · subst h
      exact Nat.le_max_left _ _
    · exact Nat.le_trans (ih h) (Nat.le_max_right _ _)

/-- Every live snapshot id is strictly below the id the next INSERT
receives. -/
theorem snapshot_ids_lt_nextId (db : DB) :
    ∀ s ∈ db.snapshots, s.id < nextId db := by
  intro s hs
  have h1 : s.id ≤ maxIdOr0 db.snapshots :=
    le_foldr_max _ _ (List.mem_map_of_mem _ hs)
  have h2 : maxIdOr0 db.snapshots ≤ max db.seq (maxIdOr0 db.snapshots) :=
    Nat.le_max_right _ _
  simp only [nextId]
  omega

/-- On a non-empty store with a fresh name, createSnapshot commits: it
appends the snapshot row with the fresh id, copies the whole activity
read into snapshot_data, advances the watermark and reports
{id, name, row count}. -/
theorem createSnapshot_success (db : DB) (now : Nat) (dt : DateTime)
    (hne : db.channel_activity ≠ [])
    (hfresh : ∀ s ∈ db.snapshots, s.name ≠ snapName dt) :
    createSnapshot db now dt =
      ({ channel_activity := db.channel_activity,
         snapshots := db.snapshots ++
           [{ id := nextId db, name := snapName dt, created_at := now }],
         snapshot_data := db.snapshot_data ++
           (List.insertionSort actOrd db.channel_activity).map (fun a =>
             SnapshotDataRow.mk (nextId db) a.user_id a.username a.roles
               a.channel_id a.channel_name a.message_count),
         seq := nextId db },
       some { id := nextId db, name := snapName dt,
              count := (List.insertionSort actOrd db.channel_activity).length }) := by
  have hanyn : ¬ ((db.snapshots.any fun s => s.name == snapName dt) = true) := by
    simp only [List.any_eq_true, beq_iff_eq]
    rintro ⟨s, hs, h⟩
    exact hfresh s hs h
  have hempt : ¬ ((List.insertionSort actOrd db.channel_activity).isEmpty = true) := by
    rw [List.isEmpty_iff]
    intro h
    apply hne
    have hl := (List.perm_insertionSort actOrd db.channel_activity).length_eq
    rw [h] at hl
    exact List.length_eq_zero.mp hl.symm
  simp only [createSnapshot]
  rw [if_neg hanyn, if_neg hempt]

/-- Looking up the freshly appended snapshot row finds it. -/
theorem find_new_snapshot (db : DB) (snap : SnapshotRow)
    (hgt : ∀ s ∈ db.snapshots, s.id < snap.id) :
    (db.snapshots ++ [snap]).find? (fun s => s.id == snap.id) = some snap := by
  rw [List.find?_append]
  have h1 : db.snapshots.find? (fun s => s.id == snap.id) = none := by
    rw [List.find?_eq_none]
    intro s hs
    simp only [beq_iff_eq]
    exact Nat.ne_of_lt (hgt s hs)
  rw [h1]
  simp

/-- The user ids of the per-user aggregation are the distinct user ids of
the rows. -/
theorem mkUserEntries_user_ids (rows : List SnapshotDataRow) :
    (mkUserEntries rows).map (fun e => e.user_id) =
      (rows.map (fun r => r.user_id)).dedup := by
  simp only [mkUserEntries]
  rw [List.map_map]
  exact List.map_id'' (fun u => rfl) _

/-- Each user of the rows gets an aggregation entry summing that user's
message counts and listing exactly that user's channel rows. -/
theorem mkUserEntries_mem_spec (rows : List SnapshotDataRow) (u : String)
    (hu : u ∈ rows.map (fun r => r.user_id)) :
    ∃ e ∈ mkUserEntries rows, e.user_id = u
      ∧ e.total_messages = ((rows.filter (fun r => r.user_id == u)).map
          (fun r => r.message_count)).sum
      ∧ List.Perm e.channels ((rows.filter (fun r => r.user_id == u)).map
          (fun r => ChannelEntry.mk r.channel_id r.channel_name
            r.message_count)) := by
  refine ⟨_, List.mem_map_of_mem _ (List.mem_dedup.mpr hu), rfl, rfl, ?_⟩
  exact ((List.perm_insertionSort chanOrd rows).filter _).map _

/-- C4: on a non-empty store (with a fresh name for the creation instant
and referentially intact snapshot_data), createSnapshot followed by
getSnapshot on the returned id yields one entry per user of the store,
whose total_messages is the sum of that user's message_count over all of
that user's channels at snapshot time and whose channels list holds
exactly that user's per-channel rows; getSnapshot is not-found whenever
no Snapshot row carries the requested id. -/
theorem snapshot_roundtrip_fidelity (db : DB) (now : Nat) (dt : DateTime)
    (hne : db.channel_activity ≠ [])
    (hfresh : ∀ s ∈ db.snapshots, s.name ≠ snapName dt)
    (hfk : ∀ r ∈ db.snapshot_data, ∃ s ∈ db.snapshots, r.snapshot_id = s.id) :
    (∀ (d : DB) (j : Nat), (∀ s ∈ d.snapshots, s.id ≠ j) →
        getSnapshot d j = none)
    ∧ ∃ res view, (createSnapshot db now dt).2 = some res
        ∧ getSnapshot (createSnapshot db now dt).1 res.id = some view
        ∧ (view.users.map (fun e => e.user_id)).Nodup
        ∧ ∀ u ∈ db.channel_activity.map (fun a => a.user_id),
            ∃ e ∈ view.users, e.user_id = u
              ∧ e.total_messages =
                  ((db.channel_activity.filter (fun a => a.user_id == u)).map
                    (fun a => a.message_count)).sum
              ∧ List.Perm e.channels
                  ((db.channel_activity.filter (fun a => a.user_id == u)).map
                    (fun a => ChannelEntry.mk a.channel_id a.channel_name
                      a.message_count)) := by
  constructor
  · intro d j hj
    have hfind : d.snapshots.find? (fun s => s.id == j) = none := by
      rw [List.find?_eq_none]
      intro s hs
      simpa using hj s hs
    simp only [getSnapshot, hfind]
  · rw [createSnapshot_success db now dt hne hfresh]
    set rows := (List.insertionSort actOrd db.channel_activity).map (fun a =>
      SnapshotDataRow.mk (nextId db) a.user_id a.username a.roles
        a.channel_id a.channel_name a.message_count) with hrowsdef
    have hfind : (db.snapshots ++
        [SnapshotRow.mk (nextId db) (snapName dt) now]).find?
          (fun s => s.id == nextId db) =
        some (SnapshotRow.mk (nextId db) (snapName dt) now) :=
      find_new_snapshot db (SnapshotRow.mk (nextId db) (snapName dt) now)
        (fun s hs => snapshot_ids_lt_nextId db s hs)
    have hfilt : (db.snapshot_data ++ rows).filter
        (fun r => r.snapshot_id == nextId db) = rows := by
      rw [List.filter_append]
      have h1 : db.snapshot_data.filter
          (fun r => r.snapshot_id == nextId db) = [] := by
        rw [List.filter_eq_nil_iff]
        intro r hr
        rcases hfk r hr with ⟨s, hs, heq⟩
        have hlt := snapshot_ids_lt_nextId db s hs
        simp only [beq_iff_eq, heq]
        omega
      have h2 : rows.filter (fun r => r.snapshot_id == nextId db) = rows := by
        rw [List.filter_eq_self]
        intro r hrr
        rcases List.mem_map.mp hrr with ⟨a, ha, hae⟩
        subst hae
        simp
      rw [h1, h2, List.nil_append]
    have hget : getSnapshot
        (DB.mk db.channel_activity
          (db.snapshots ++ [SnapshotRow.mk (nextId db) (snapName dt) now])
          (db.snapshot_data ++ rows) (nextId db)) (nextId db) =
        some (SnapshotView.mk (SnapshotRow.mk (nextId db) (snapName dt) now)
          (List.insertionSort userOrd (mkUserEntries rows))) := by
      simp only [getSnapshot]
      rw [hfind, hfilt]
    refine ⟨_, _, rfl, by exact hget, ?_, ?_⟩
    · have hperm : List.Perm (List.insertionSort userOrd (mkUserEntries rows))
          (mkUserEntries rows) := List.perm_insertionSort _ _
      have hnd : ((mkUserEntries rows).map (fun e => e.user_id)).Nodup := by
        rw [mkUserEntries_user_ids]
        exact List.nodup_dedup _
      exact ((hperm.map (fun e => e.user_id)).symm).nodup hnd
    · intro u hu
      have hdata : List.Perm (List.insertionSort actOrd db.channel_activity)
          db.channel_activity := List.perm_insertionSort _ _
      have hu2 : u ∈ (List.insertionSort actOrd db.channel_activity).map
          (fun a => a.user_id) := ((hdata.map (fun a => a.user_id)).mem_iff).mpr hu
      have hu3 : u ∈ rows.map (fun r => r.user_id) := by
        rw [hrowsdef, List.map_map]
        exact hu2
      rcases mkUserEntries_mem_spec rows u hu3 with ⟨e, he, heu, het, hec⟩
      have hperm : List.Perm (List.insertionSort userOrd (mkUserEntries rows))
          (mkUserEntries rows) := List.perm_insertionSort _ _
      have hfeq : rows.filter (fun r => r.user_id == u) =
          ((List.insertionSort actOrd db.channel_activity).filter
            (fun a => a.user_id == u)).map (fun a =>
              SnapshotDataRow.mk (nextId db) a.user_id a.username a.roles
                a.channel_id a.channel_name a.message_count) := by
        rw [hrowsdef, List.filter_map]
        exact rfl
      have hfperm : List.Perm ((List.insertionSort actOrd
          db.channel_activity).filter (fun a => a.user_id == u))
          (db.channel_activity.filter (fun a => a.user_id == u)) :=
        hdata.filter _
      refine ⟨e, hperm.mem_iff.mpr he, heu, ?_, ?_⟩
      · rw [het, hfeq, List.map_map]
        exact (hfperm.map (fun a => a.message_count)).sum_eq
      · refine hec.trans ?_
        rw [hfeq, List.map_map]
        exact hfperm.map _

theorem snapshot_roundtrip_fidelity_witness :
    dbLive.channel_activity ≠ []
    ∧ (∀ s ∈ dbLive.snapshots, s.name ≠ snapName dt0)
    ∧ (∀ r ∈ dbLive.snapshot_data, ∃ s ∈ dbLive.snapshots, r.snapshot_id = s.id)
    ∧ getSnapshot dbEmpty 7 = none :=
  ⟨by decide, by decide, by decide,
   (snapshot_roundtrip_fidelity dbLive 100 dt0 (by decide) (by decide)
     (by decide)).1 dbEmpty 7 (by decide)⟩

/-- A lexicographic comparison is preserved under a shared prefix. -/
theorem lex_append_left (xs : List Char) {as bs : List Char}
    (h : List.Lex (fun c d => c < d) as bs) :
    List.Lex (fun c d => c < d) (xs ++ as) (xs ++ bs) := by
  induction xs with
  | nil => exact h
  | cons x xs ih => exact List.Lex.cons ih

/-- Same-width blocks decide a lexicographic comparison before whatever
follows them. -/
theorem lex_append_of_lex : ∀ (xs ys as bs : List Char),
    xs.length = ys.length → List.Lex (fun c d => c < d) xs ys →
    List.Lex (fun c d => c < d) (xs ++ as) (ys ++ bs)
  | [], [], _, _, _, h => by cases h
  | [], _ :: _, _, _, hlen, _ => by simp at hlen
  | _ :: _, [], _, _, hlen, _ => by simp at hlen
  | x :: xs, y :: ys, as, bs, hlen, h => by
    cases h with
    | rel hr => exact List.Lex.rel hr
    | cons h2 =>
      exact List.Lex.cons (lex_append_of_lex xs ys as bs (by simpa using hlen) h2)

/-- ASCII digit characters compare like their digits. -/
theorem digitChar_lt {x y : Nat} (hx : x < 10) (hy : y < 10) (h : x < y) :
    digitChar x < digitChar y := by
  interval_cases x <;> interval_cases y <;> decide

/-- Two-digit zero-padded renderings are lexicographically monotone. -/
theorem pad2_lex {a b : Nat} (h : a < b) (hb : b ≤ 99) :
    List.Lex (fun c d => c < d) (pad2 a) (pad2 b) := by
  have hd : a / 10 % 10 < b / 10 % 10
      ∨ (a / 10 % 10 = b / 10 % 10 ∧ a % 10 < b % 10) := by
    omega
  simp only [pad2]
  rcases hd with h1 | ⟨e1, h2⟩
  · exact List.Lex.rel (digitChar_lt (by omega) (by omega) h1)
  · rw [e1]
    exact List.Lex.cons (List.Lex.rel (digitChar_lt (by omega) (by omega) h2))

/-- Three-digit zero-padded renderings are lexicographically monotone. -/
theorem pad3_lex {a b : Nat} (h : a < b) (hb : b ≤ 999) :
    List.Lex (fun c d => c < d) (pad3 a) (pad3 b) := by
  have hd : a / 100 % 10 < b / 100 % 10
      ∨ (a / 100 % 10 = b / 100 % 10 ∧ (a / 10 % 10 < b / 10 % 10
      ∨ (a / 10 % 10 = b / 10 % 10 ∧ a % 10 < b % 10))) := by
    omega
  simp only [pad3]
  rcases hd with h1 | ⟨e1, h2 | ⟨e2, h3⟩⟩
  · exact List.Lex.rel (digitChar_lt (by omega) (by omega) h1)
  · rw [e1]
    exact List.Lex.cons (List.Lex.rel (digitChar_lt (by omega) (by omega) h2))
  · rw [e1, e2]
    exact List.Lex.cons (List.Lex.cons (List.Lex.rel
      (digitChar_lt (by omega) (by omega) h3)))

/-- Four-digit zero-padded renderings are lexicographically monotone. -/
theorem pad4_lex {a b : Nat} (h : a < b) (hb : b ≤ 9999) :
    List.Lex (fun c d => c < d) (pad4 a) (pad4 b) := by
  have hm1 : a / 1000 % 10 = a / 1000 := Nat.mod_eq_of_lt (by omega)
  have hm2 : b / 1000 % 10 = b / 1000 := Nat.mod_eq_of_lt (by omega)
  have hd : a / 1000 % 10 < b / 1000 % 10
      ∨ (a / 1000 % 10 = b / 1000 % 10 ∧ (a / 100 % 10 < b / 100 % 10
      ∨ (a / 100 % 10 = b / 100 % 10 ∧ (a / 10 % 10 < b / 10 % 10
      ∨ (a / 10 % 10 = b / 10 % 10 ∧ a % 10 < b % 10))))) := by
    rw [hm1, hm2]
    omega
  simp only [pad4]
  rcases hd with h1 | ⟨e1, h2 | ⟨e2, h3 | ⟨e3, h4⟩⟩⟩
  · exact List.Lex.rel (digitChar_lt (by omega) (by omega) h1)
  · rw [e1]
    exact List.Lex.cons (List.Lex.rel (digitChar_lt (by omega) (by omega) h2))
  · rw [e1, e2]
    exact List.Lex.cons (List.Lex.cons (List.Lex.rel
      (digitChar_lt (by omega) (by omega) h3)))
  · rw [e1, e2, e3]
    exact List.Lex.cons (List.Lex.cons (List.Lex.cons (List.Lex.rel
      (digitChar_lt (by omega) (by omega) h4))))

/-- The snapshot name is strictly monotone in the creation instant:
chronologically later instants (within the ISO field bounds) render to
lexicographically greater names. -/
theorem snapName_lt_of_dtLt (a b : DateTime) (_ha : isoBounded a)
    (hb : isoBounded b) (hlt : dtLt a b) : snapName a < snapName b := by
  rw [String.lt_iff_toList_lt]
  show List.Lex (fun c d => c < d) (snapNameChars a) (snapNameChars b)
  simp only [snapNameChars]
  rcases hlt with h | ⟨e1, h | ⟨e2, h | ⟨e3, h | ⟨e4, h | ⟨e5, h | ⟨e6, h⟩⟩⟩⟩⟩⟩
  · exact lex_append_of_lex _ _ _ _ rfl (pad4_lex h hb.1)
  · rw [e1]
    apply lex_append_left
    apply List.Lex.cons
    exact lex_append_of_lex _ _ _ _ rfl (pad2_lex h hb.2.1)
  · rw [e1, e2]
    apply lex_append_left
    apply List.Lex.cons
    apply lex_append_left
    apply List.Lex.cons
    exact lex_append_of_lex _ _ _ _ rfl (pad2_lex h hb.2.2.1)
  · rw [e1, e2, e3]
    apply lex_append_left
    apply List.Lex.cons
    apply lex_append_left
    apply List.Lex.cons
    apply lex_append_left
    apply List.Lex.cons
    exact lex_append_of_lex _ _ _ _ rfl (pad2_lex h hb.2.2.2.1)
  · rw [e1, e2, e3, e4]
    apply lex_append_left
    apply List.Lex.cons
    apply lex_append_left
    apply List.Lex.cons
    apply lex_append_left
    apply List.Lex.cons
    apply lex_append_left
    apply List.Lex.cons
    exact lex_append_of_lex _ _ _ _ rfl (pad2_lex h hb.2.2.2.2.1)
  · rw [e1, e2, e3, e4, e5]
    apply lex_append_left
    apply List.Lex.cons
    apply lex_append_left
    apply List.Lex.cons
    apply lex_append_left
    apply List.Lex.cons
    apply lex_append_left
    apply List.Lex.cons
    apply lex_append_left
    apply List.Lex.cons
    exact lex_append_of_lex _ _ _ _ rfl (pad2_lex h hb.2.2.2.2.2.1)
  · rw [e1, e2, e3, e4, e5, e6]
    apply lex_append_left
    apply List.Lex.cons
    apply lex_append_left
    apply List.Lex.cons
    apply lex_append_left
    apply List.Lex.cons
    apply lex_append_left
    apply List.Lex.cons
    apply lex_append_left
    apply List.Lex.cons
    apply lex_append_left
    apply List.Lex.cons
    exact lex_append_of_lex _ _ _ _ rfl (pad3_lex h hb.2.2.2.2.2.2)

/-- C9 counterexample: the claim fails at equal clock instants.  After one
successful snapshot of the (still non-empty) live store at instant dt0, a
second createSnapshot at the very same instant derives the identical name,
hits the UNIQUE(name) constraint, and returns null with the database
unchanged - no new snapshot is produced. -/
theorem createSnapshot_same_instant_collision :
    dbAfterFirst.channel_activity ≠ []
    ∧ (createSnapshot dbLive 100 dt0).2 =
        some { id := 1, name := snapName dt0, count := 3 }
    ∧ (createSnapshot dbAfterFirst 100 dt0).2 = none
    ∧ (createSnapshot dbAfterFirst 100 dt0).1 = dbAfterFirst := by
  decide

/-- C9 (amended): on a non-empty ActivityStore, createSnapshot at an
instant whose derived name is not yet taken produces a new snapshot whose
id is fresh (greater than every live id, drawn from the sequence) and
whose name derives from the instant; names are lexicographically ordered
by the creation instant; but two calls at the same instant derive the
same name and the second one fails the uniqueness constraint, returning
null with the state unchanged instead of producing a snapshot. -/
theorem createSnapshot_fresh_name_unique_ordered (db : DB) (now : Nat)
    (dt : DateTime) (hne : db.channel_activity ≠ []) :
    ((∀ s ∈ db.snapshots, s.name ≠ snapName dt) →
      ∃ res, (createSnapshot db now dt).2 = some res
        ∧ res.id = nextId db
        ∧ (∀ s ∈ db.snapshots, s.id < res.id)
        ∧ res.name = snapName dt
        ∧ snapName dt ∈
            (createSnapshot db now dt).1.snapshots.map (fun s => s.name))
    ∧ (∀ dt2, isoBounded dt → isoBounded dt2 → dtLt dt dt2 →
        snapName dt < snapName dt2)
    ∧ ((∃ s ∈ db.snapshots, s.name = snapName dt) →
        createSnapshot db now dt = (db, none)) := by
  refine ⟨?_, ?_, ?_⟩
  · intro hfresh
    rw [createSnapshot_success db now dt hne hfresh]
    refine ⟨_, rfl, rfl, ?_, rfl, ?_⟩
    · exact fun s hs => snapshot_ids_lt_nextId db s hs
    · simp
  · exact fun dt2 ha hb h => snapName_lt_of_dtLt dt dt2 ha hb h
  · rintro ⟨s, hs, hname⟩
    have hany : (db.snapshots.any fun s => s.name == snapName dt) = true := by
      simp only [List.any_eq_true, beq_iff_eq]
      exact ⟨s, hs, hname⟩
    simp only [createSnapshot]
    rw [if_pos hany]

theorem createSnapshot_fresh_name_unique_ordered_witness :
    dbLive.channel_activity ≠ []
    ∧ isoBounded dt0 ∧ isoBounded dt1 ∧ dtLt dt0 dt1
    ∧ snapName dt0 < snapName dt1 :=
  ⟨by decide, by decide, by decide, by decide,
   (createSnapshot_fresh_name_unique_ordered dbLive 100 dt0 (by decide)).2.1
     dt1 (by decide) (by decide) (by decide)⟩
